import Mathlib

/-!
Verification development for the garden action execution engine.

The definitions below are a shallow embedding of the execution-engine sources:
the run task (core/src/tasks/run.ts), the run router (core/src/router/run.ts),
the build task, the publish task, the test task and the test router, together
with the version fingerprint provider and the scheduler fragments that the
sources reference but whose implementation files are not part of the embedded
tree (those are modelled from the specification and marked as such).

Stateful behaviour (event emission, artifact copying, temp-dir cleanup,
handler invocation) is embedded as an explicit trace of effects returned
alongside each result.  Fallible code returns Except.  Log rendering, log
streaming and namespace events are elided: no claim mentions them and they do
not influence control flow.
-/

namespace Garden

/-- Action states as used by the embedded sources (spec section 3: a task
result state is ready / not-ready / unknown / failed; the routers additionally
use a processing state while executing). -/
inductive ActionState where
  | ready
  | notReady
  | processing
  | unknown
  | failed
  deriving DecidableEq, Repr

/-- A reference to an action by kind and name (spec section 3: declared
dependency references identify other actions by kind plus name). -/
structure ActionRef where
  kind : String
  name : String
  deriving DecidableEq, Repr

/-- The slice of a resolved action visible to the embedded task and router
code: identity, version string, owning module data, and the allowPublish
config flag read by the publish task (absent, true or false). -/
structure Action where
  kind : String
  name : String
  versionString : String
  moduleName : String
  moduleVersion : String
  allowPublish : Option Bool
  deriving DecidableEq, Repr

/-- Modelled from the spec: Action.matchesRef lives in the action base class,
which is not among the embedded sources.  Spec section 3 identifies actions by
the kind plus name pair, so a reference matches when both agree. -/
def Action.matchesRef (a : Action) (r : ActionRef) : Bool :=
  a.kind = r.kind && a.name = r.name

/-- Errors crossing the embedded boundaries.  handlerFailed stands for an
arbitrary error thrown by a plugin handler; runTaskError and testError are the
error classes defined in the run and test task files (each carries the
optional log text of the result detail); outputValidation is the error the
router raises when handler outputs fail the action output schema (it names
the action kind, the action name and the offending key, as exercised by the
router tests); configuration is the spec category for configuration
problems. -/
inductive Err where
  | handlerFailed (msg : String)
  | runTaskError (log : Option String)
  | testError (log : Option String)
  | outputValidation (kind : String) (name : String) (key : String)
  | configuration (msg : String)
  deriving DecidableEq, Repr

/-- Whether an error indicates a configuration problem (spec section 7). -/
def Err.isConfiguration : Err → Bool
  | .configuration _ => true
  | _ => false

/-- Handler outputs: a finite map from output key to value, embedded as an
association list. -/
abbrev Outputs := List (String × String)

/-- Result detail of a Run handler (success flag, captured log, exit code). -/
structure RunDetail where
  success : Bool
  log : String
  exitCode : Option Int
  deriving DecidableEq, Repr

/-- Result detail of a Test handler. -/
structure TestDetail where
  success : Bool
  log : String
  exitCode : Option Int
  deriving DecidableEq, Repr

/-- Result detail of a publish handler (published flag and optional
message), as produced by the build plugin publish handlers. -/
structure PublishDetail where
  published : Bool
  message : Option String
  deriving DecidableEq, Repr

/-- Shape shared by handler results in the embedded sources: a state, an
optional detail payload and an outputs map. -/
structure HandlerResult (δ : Type) where
  state : ActionState
  detail : Option δ
  outputs : Outputs
  deriving DecidableEq, Repr

/-- GetRunResult in the sources. -/
def RunResult := HandlerResult RunDetail
deriving instance DecidableEq, Repr for RunResult

/-- GetTestResult in the sources. -/
def TestResult := HandlerResult TestDetail
deriving instance DecidableEq, Repr for TestResult

/-- PublishActionResult in the sources. -/
def PublishResult := HandlerResult PublishDetail
deriving instance DecidableEq, Repr for PublishResult

/-- BuildStatus in the sources (the build task passes the handler result
through unchanged, so no detail structure is needed). -/
def BuildResult := HandlerResult Unit
deriving instance DecidableEq, Repr for BuildResult

/-- Observable effects of the embedded router code, in emission order:
status events on the garden event bus (event name, action name, action
version, optional actionUid, status state string), the plugin handler
invocation, the artifact copy (recorded with the key ingredients: kind,
action name, action version) and the temp-dir cleanup. -/
inductive Effect where
  | statusEvent (eventName : String) (actionName : String) (actionVersion : String)
      (actionUid : Option Nat) (state : String)
  | callHandler
  | copyArtifacts (kind : String) (name : String) (version : String)
  | cleanupTmpDir
  deriving DecidableEq, Repr

/-- Modelled from the spec: validateActionOutputs lives in the router base
class, which is not among the embedded sources.  Spec sections 4.5 and 7:
handler outputs are validated against the action output schema; a mismatch is
a thrown validation error, never a coercion, and the error names the action
and the offending key (the router tests show the message naming the action
kind, the action name and the key).  The schema is embedded as a per-key
value predicate; the first offending entry is reported. -/
def validateActionOutputs (a : Action) (schema : String → String → Bool)
    (outputs : Outputs) : Except Err Unit :=
  match outputs.find? (fun kv => !(schema kv.1 kv.2)) with
  | some kv => .error (.outputValidation a.kind a.name kv.1)
  | none => .ok ()

/-- executeAction in actions/helpers: wraps a resolved action together with
the execution status into an executed-action value. -/
structure ExecutedAction (δ : Type) where
  action : Action
  status : HandlerResult δ
  deriving DecidableEq, Repr

/-- Helper constructing the executed-action value. -/
def executeAction (a : Action) (status : HandlerResult δ) : ExecutedAction δ :=
  { action := a, status := status }

/-- The run router execute operation (core/src/router/run.ts, handler run):
makes a temp artifacts dir, emits a taskStatus event with state running and a
fresh actionUid, invokes the plugin handler, validates the handler outputs,
emits a second taskStatus event whose status is derived from the result
detail (runStatus, passed in because plugin/base is not among the embedded
sources), and in a finally block copies artifacts under the key built from
kind run, action name and action version, then cleans the temp dir up. -/
def runRouterRun (runStatus : Option RunDetail → String) (uid : Nat) (a : Action)
    (schema : String → String → Bool) (handler : Except Err RunResult) :
    Except Err RunResult × List Effect :=
  let running := Effect.statusEvent "taskStatus" a.name a.versionString (some uid) "running"
  let cleanup := [Effect.copyArtifacts "run" a.name a.versionString, Effect.cleanupTmpDir]
  match handler with
  | .error e => (.error e, running :: .callHandler :: cleanup)
  | .ok result =>
    match validateActionOutputs a schema result.outputs with
    | .error e => (.error e, running :: .callHandler :: cleanup)
    | .ok _ =>
      (.ok result,
        running :: .callHandler ::
          Effect.statusEvent "taskStatus" a.name a.versionString (some uid)
            (runStatus result.detail) :: cleanup)

/-- The run router getResult operation (core/src/router/run.ts, handler
getResult): invokes the plugin getResult handler, falling back to the default
handler returning state unknown with null detail and empty outputs when the
plugin supplies none; emits a taskStatus event with the derived status (no
actionUid); then validates the result outputs and returns the result. -/
def runRouterGetResult (runStatus : Option RunDetail → String) (a : Action)
    (schema : String → String → Bool) (handler : Option (Except Err RunResult)) :
    Except Err RunResult × List Effect :=
  let called : Except Err RunResult :=
    match handler with
    | none => .ok { state := .unknown, detail := none, outputs := [] }
    | some r => r
  match called with
  | .error e => (.error e, [.callHandler])
  | .ok result =>
    let ev := Effect.statusEvent "taskStatus" a.name a.versionString none
      (runStatus result.detail)
    match validateActionOutputs a schema result.outputs with
    | .error e => (.error e, [.callHandler, ev])
    | .ok _ => (.ok result, [.callHandler, ev])

/-- The test router execute operation (test router source, handler run):
same shape as the run router execute operation, with testStatus events and
artifact kind test. -/
def testRouterRun (runStatus : Option TestDetail → String) (uid : Nat) (a : Action)
    (schema : String → String → Bool) (handler : Except Err TestResult) :
    Except Err TestResult × List Effect :=
  let running := Effect.statusEvent "testStatus" a.name a.versionString (some uid) "running"
  let cleanup := [Effect.copyArtifacts "test" a.name a.versionString, Effect.cleanupTmpDir]
  match handler with
  | .error e => (.error e, running :: .callHandler :: cleanup)
  | .ok result =>
    match validateActionOutputs a schema result.outputs with
    | .error e => (.error e, running :: .callHandler :: cleanup)
    | .ok _ =>
      (.ok result,
        running :: .callHandler ::
          Effect.statusEvent "testStatus" a.name a.versionString (some uid)
            (runStatus result.detail) :: cleanup)

/-- The test router getResult operation: plugin handler or the default
handler (state unknown, null detail, empty outputs), a testStatus event, then
output validation. -/
def testRouterGetResult (runStatus : Option TestDetail → String) (a : Action)
    (schema : String → String → Bool) (handler : Option (Except Err TestResult)) :
    Except Err TestResult × List Effect :=
  let called : Except Err TestResult :=
    match handler with
    | none => .ok { state := .unknown, detail := none, outputs := [] }
    | some r => r
  match called with
  | .error e => (.error e, [.callHandler])
  | .ok result =>
    let ev := Effect.statusEvent "testStatus" a.name a.versionString none
      (runStatus result.detail)
    match validateActionOutputs a schema result.outputs with
    | .error e => (.error e, [.callHandler, ev])
    | .ok _ => (.ok result, [.callHandler, ev])

/-- RunTask.getStatus (core/src/tasks/run.ts): queries the run router
getResult; on a thrown error it marks the log entry and rethrows; on success
it returns null when the result detail is null, and otherwise the status
together with the executed-action value. -/
def runTaskGetStatus (runStatus : Option RunDetail → String) (a : Action)
    (schema : String → String → Bool) (handler : Option (Except Err RunResult)) :
    Except Err (Option (RunResult × ExecutedAction RunDetail)) :=
  match (runRouterGetResult runStatus a schema handler).1 with
  | .error e => .error e
  | .ok status =>
    if status.detail = none then .ok none
    else .ok (some (status, executeAction a status))

/-- RunTask.process (core/src/tasks/run.ts): invokes the run router execute
operation; a thrown error is rethrown unchanged; when the returned state is
ready the status is returned with the executed-action value, otherwise a
RunTaskError carrying the optional detail log is thrown. -/
def runTaskProcess (runStatus : Option RunDetail → String) (uid : Nat) (a : Action)
    (schema : String → String → Bool) (handler : Except Err RunResult) :
    Except Err (RunResult × ExecutedAction RunDetail) × List Effect :=
  let r := runRouterRun runStatus uid a schema handler
  match r.1 with
  | .error e => (.error e, r.2)
  | .ok status =>
    if status.state = ActionState.ready then (.ok (status, executeAction a status), r.2)
    else (.error (.runTaskError (status.detail.map RunDetail.log)), r.2)

/-- TestTask.getStatus (test task source): queries the test router getResult
(no catch: errors propagate); returns the status with the executed-action
value when a result detail exists and reports success, and null otherwise. -/
def testTaskGetStatus (runStatus : Option TestDetail → String) (a : Action)
    (schema : String → String → Bool) (handler : Option (Except Err TestResult)) :
    Except Err (Option (TestResult × ExecutedAction TestDetail)) :=
  match (testRouterGetResult runStatus a schema handler).1 with
  | .error e => .error e
  | .ok status =>
    match status.detail with
    | some d => if d.success then .ok (some (status, executeAction a status)) else .ok none
    | none => .ok none

/-- TestTask.process (test task source): invokes the test router execute
operation; a thrown error is rethrown unchanged; when the result detail
reports success the status is returned with the executed-action value,
otherwise a TestError carrying the optional detail log is thrown. -/
def testTaskProcess (runStatus : Option TestDetail → String) (uid : Nat) (a : Action)
    (schema : String → String → Bool) (handler : Except Err TestResult) :
    Except Err (TestResult × ExecutedAction TestDetail) × List Effect :=
  let r := testRouterRun runStatus uid a schema handler
  match r.1 with
  | .error e => (.error e, r.2)
  | .ok status =>
    match status.detail with
    | some d =>
      if d.success then (.ok (status, executeAction a status), r.2)
      else (.error (.testError (some d.log)), r.2)
    | none => (.error (.testError none), r.2)

/-- BuildTask (build task source): wraps a build action with a force flag;
the class declares type build and concurrencyLimit 5. -/
structure BuildTask where
  action : Action
  force : Bool
  deriving DecidableEq, Repr

/-- The type field of BuildTask. -/
def BuildTask.type (_ : BuildTask) : String := "build"

/-- The concurrencyLimit field of BuildTask. -/
def BuildTask.concurrencyLimit (_ : BuildTask) : Nat := 5

/-- BuildTask.process (build task source): syncs sources and dependency
products (build-staging collaborators, elided as they do not affect the
result), invokes the build router; a thrown error is rethrown unchanged; the
handler result is returned with the executed-action value regardless of its
state. -/
def buildTaskProcess (a : Action) (handler : Except Err BuildResult) :
    Except Err (BuildResult × ExecutedAction Unit) :=
  match handler with
  | .error e => .error e
  | .ok result => .ok (result, executeAction a result)

/-- PublishTask (publish task source): wraps a build action; carries the
force-action references from the base task parameters and an optional tag
template; the class declares type publish and concurrencyLimit 5. -/
structure PublishTask where
  action : Action
  forceActions : List ActionRef
  tagTemplate : Option String
  deriving DecidableEq, Repr

/-- The type field of PublishTask. -/
def PublishTask.type (_ : PublishTask) : String := "publish"

/-- The concurrencyLimit field of PublishTask. -/
def PublishTask.concurrencyLimit (_ : PublishTask) : Nat := 5

/-- PublishTask.resolveProcessDependencies (publish task source): when the
action config sets allowPublish to false the task has no dependencies;
otherwise exactly one BuildTask for the same action, forced when some
force-action reference matches the action. -/
def PublishTask.resolveProcessDependencies (t : PublishTask) : List BuildTask :=
  if t.action.allowPublish = some false then []
  else
    [{ action := t.action,
       force := t.forceActions.any (fun r => t.action.matchesRef r) }]

/-- PublishTask.getStatus (publish task source): always returns null. -/
def publishTaskGetStatus (_ : PublishTask) : Option PublishResult := none

/-- PublishTask.process (publish task source): when the action config sets
allowPublish to false, returns state ready with detail published false and
empty outputs without calling the router publish handler; otherwise invokes
the publish handler (tag template resolution elided: it only computes the tag
argument) and passes its result or error through.  The boolean records
whether the publish handler was invoked. -/
def publishTaskProcess (t : PublishTask) (handler : Except Err PublishResult) :
    Except Err PublishResult × Bool :=
  if t.action.allowPublish = some false then
    (.ok { state := .ready, detail := some { published := false, message := none },
           outputs := [] }, false)
  else
    match handler with
    | .error e => (.error e, true)
    | .ok result => (.ok result, true)

/-- Modelled from the spec: the graph solver handling of a node status check
(the scheduler sources are not among the embedded files).  Spec section 7:
a status-check error is treated as not up to date, so the task proceeds to
re-execution, unless the error indicates a configuration problem; a present
status means the task is up to date, a null status means it needs a run. -/
inductive NodeDecision (α : Type) where
  | upToDate (r : α)
  | needsRun
  | aborted (e : Err)
  deriving DecidableEq

/-- Modelled from the spec: the solver step consuming a getStatus outcome,
per the status-check error policy of spec section 7. -/
def solverStatusStep (status : Except Err (Option α)) : NodeDecision α :=
  match status with
  | .ok (some r) => .upToDate r
  | .ok none => .needsRun
  | .error e => if e.isConfiguration then .aborted e else .needsRun

/-- Modelled from the spec: the scheduler transitions for one task type (the
scheduler sources are not among the embedded files; spec sections 4.4 and
5).  The state is the number of tasks of the type currently inside process:
a task may be dispatched into process only while fewer than the per-type
concurrency limit are running, and a running task may finish at any time. -/
inductive SchedStep (limit : Nat) : Nat → Nat → Prop
  | dispatch (n : Nat) : n < limit → SchedStep limit n (n + 1)
  | finish (n : Nat) : SchedStep limit (n + 1) n

/-- Running counts the scheduler can reach from the idle state for one task
type under the given per-type concurrency limit. -/
def SchedReachable (limit : Nat) (n : Nat) : Prop :=
  Relation.ReflTransGen (SchedStep limit) 0 n

/-- Modelled from the spec: the version fingerprint provider (the vcs module
version sources are not among the embedded files; only their tests are).
Spec sections 3 and 4.1: computeVersion is a pure deterministic function of
the normalized action spec, the content hashes of the attributed source
files, and the canonically ordered versions of the direct dependencies; the
output is a stable string made of the fixed v- prefix followed by a hex
digest of the serialized inputs.  The spec is embedded as its normalized
key-value serialization, source files as path plus content-hash pairs. -/
def canonicalDeps (deps : List String) : List String :=
  deps.mergeSort (fun x y => decide (x ≤ y))

/-- Character-code serialization of a string, the injective first stage of
the digest input. -/
def strCode (s : String) : List Nat :=
  s.data.map Char.toNat

/-- Serialization of a key-value pair. -/
def pairCode (p : String × String) : List Nat × List Nat :=
  (strCode p.1, strCode p.2)

/-- Canonical serialization of the full version input closure: normalized
spec entries, source file entries, and dependency versions in canonical
order. -/
def versionInputCode (spec files : List (String × String)) (deps : List String) :
    List (List Nat × List Nat) × List (List Nat × List Nat) × List (List Nat) :=
  (spec.map pairCode, files.map pairCode, (canonicalDeps deps).map strCode)

/-- Hex digit rendering for the digest. -/
def hexChar : Nat → Char
  | 0 => '0'
  | 1 => '1'
  | 2 => '2'
  | 3 => '3'
  | 4 => '4'
  | 5 => '5'
  | 6 => '6'
  | 7 => '7'
  | 8 => '8'
  | 9 => '9'
  | 10 => 'a'
  | 11 => 'b'
  | 12 => 'c'
  | 13 => 'd'
  | 14 => 'e'
  | _ => 'f'

/-- Hex rendering of a natural number digest. -/
def hexString (n : Nat) : String :=
  String.mk ((Nat.digits 16 n).map hexChar)

/-- The version string prefix (vcs/vcs versionStringPrefix). -/
def versionStringPrefix : String := "v-"

/-- Modelled from the spec: computeVersion(action spec, source files,
dependency versions), per spec section 4.1. -/
def computeVersion (spec files : List (String × String)) (deps : List String) :
    String :=
  versionStringPrefix ++ hexString (Encodable.encode (versionInputCode spec files deps))

/-- Recognizer for the handler-invocation effect, used to count handler
calls in a trace. -/
def isCallHandler : Effect → Bool
  | .callHandler => true
  | _ => false

/-- Concrete action fixture used by witnesses. -/
def act0 : Action :=
  { kind := "Run", name := "task-a", versionString := "v-0123ab",
    moduleName := "module-a", moduleVersion := "v-0123ab", allowPublish := none }

/-- Concrete ready run result fixture. -/
def readyRun : RunResult :=
  { state := .ready, detail := some { success := true, log := "ok", exitCode := some 0 },
    outputs := [] }

/-- Concrete not-ready run result fixture. -/
def failedRun : RunResult :=
  { state := .failed, detail := some { success := false, log := "boom", exitCode := some 1 },
    outputs := [] }

/-- Concrete failed test result fixture. -/
def failedTest : TestResult :=
  { state := .failed, detail := some { success := false, log := "tboom", exitCode := some 1 },
    outputs := [] }

/-- Concrete run result fixture carrying a nonempty outputs map. -/
def runWithOutputs : RunResult :=
  { state := .ready, detail := some { success := true, log := "ok", exitCode := some 0 },
    outputs := [("foo", "1")] }

theorem charToNat_injective : Function.Injective Char.toNat :=
  Function.LeftInverse.injective Char.ofNat_toNat

theorem strCode_injective : Function.Injective strCode := by
  intro s t h
  exact String.ext (List.map_injective_iff.mpr charToNat_injective h)

theorem pairCode_injective : Function.Injective pairCode := by
  intro p q h
  have h1 : strCode p.1 = strCode q.1 := congrArg Prod.fst h
  have h2 : strCode p.2 = strCode q.2 := congrArg Prod.snd h
  exact Prod.ext (strCode_injective h1) (strCode_injective h2)

theorem hexChar_inj_lt :
    ∀ d1 : Nat, d1 < 16 → ∀ d2 : Nat, d2 < 16 → hexChar d1 = hexChar d2 → d1 = d2 := by
  decide

theorem map_hexChar_inj :
    ∀ l1 l2 : List Nat, (∀ x ∈ l1, x < 16) → (∀ x ∈ l2, x < 16) →
      l1.map hexChar = l2.map hexChar → l1 = l2 := by
  intro l1
  induction l1 with
  | nil =>
    intro l2 _ _ h
    cases l2 with
    | nil => rfl
    | cons b t2 => simp at h
  | cons a t ih =>
    intro l2 h1 h2 h
    cases l2 with
    | nil => simp at h
    | cons b t2 =>
      simp only [List.map_cons, List.cons.injEq] at h
      have ha : a < 16 := h1 a (by simp)
      have hb : b < 16 := h2 b (by simp)
      have hab : a = b := hexChar_inj_lt a ha b hb h.1
      have ht : t = t2 :=
        ih t2 (fun x hx => h1 x (by simp [hx])) (fun x hx => h2 x (by simp [hx])) h.2
      simp [hab, ht]

theorem hexString_injective : Function.Injective hexString := by
  intro m n h
  unfold hexString at h
  have hd : (Nat.digits 16 m).map hexChar = (Nat.digits 16 n).map hexChar := by
    injection h
  have hdig : Nat.digits 16 m = Nat.digits 16 n :=
    map_hexChar_inj _ _ (fun x hx => Nat.digits_lt_base (by norm_num) hx)
      (fun x hx => Nat.digits_lt_base (by norm_num) hx) hd
  exact Nat.digits.injective 16 hdig

theorem version_prefix_cancel {s t : String} :
    versionStringPrefix ++ s = versionStringPrefix ++ t → s = t := by
  intro h
  have hdata := congrArg String.data h
  simp only [String.data_append] at hdata
  exact String.ext (List.append_cancel_left hdata)

theorem computeVersion_inj {s1 f1 : List (String × String)} {d1 : List String}
    {s2 f2 : List (String × String)} {d2 : List String} :
    computeVersion s1 f1 d1 = computeVersion s2 f2 d2 →
    s1 = s2 ∧ f1 = f2 ∧ canonicalDeps d1 = canonicalDeps d2 := by
  intro h
  unfold computeVersion at h
  have h1 := hexString_injective (version_prefix_cancel h)
  have h2 := Encodable.encode_injective h1
  unfold versionInputCode at h2
  rw [Prod.ext_iff, Prod.ext_iff] at h2
  simp only at h2
  obtain ⟨hs, hf, hd⟩ := h2
  exact ⟨List.map_injective_iff.mpr pairCode_injective hs,
         List.map_injective_iff.mpr pairCode_injective hf,
         List.map_injective_iff.mpr strCode_injective hd⟩

/-- C1: the version fingerprint is a function of the action spec, the source
content and the dependency versions: two actions with identical spec,
identical source content and identical dependency versions get the identical
version string, and any change to the serialized spec (such as adding
buildArgs, setting targetImage, adding extraFlags or changing the
dockerfile), to the source file contents, or to the canonically ordered
dependency versions (spec section 4.1: dependency versions are canonically
ordered before hashing) yields a different version string. -/
theorem version_fingerprint_c1 :
    (∀ (s1 f1 : List (String × String)) (d1 : List String)
       (s2 f2 : List (String × String)) (d2 : List String),
      s1 = s2 → f1 = f2 → d1 = d2 →
      computeVersion s1 f1 d1 = computeVersion s2 f2 d2)
    ∧
    (∀ (s1 f1 : List (String × String)) (d1 : List String)
       (s2 f2 : List (String × String)) (d2 : List String),
      s1 ≠ s2 ∨ f1 ≠ f2 ∨ canonicalDeps d1 ≠ canonicalDeps d2 →
      computeVersion s1 f1 d1 ≠ computeVersion s2 f2 d2) := by
  constructor
  · intro s1 f1 d1 s2 f2 d2 hs hf hd
    rw [hs, hf, hd]
  · intro s1 f1 d1 s2 f2 d2 hne h
    obtain ⟨hs, hf, hd⟩ := computeVersion_inj h
    rcases hne with h1 | h1 | h1
    · exact h1 hs
    · exact h1 hf
    · exact h1 hd

/-- Witness for C1: a concrete base action keeps its version when nothing
changes, and each of the four changes exercised by the container plugin
version tests (adding buildArgs, setting targetImage, adding extraFlags,
changing the dockerfile) changes the version. -/
theorem version_fingerprint_c1_witness :
    (computeVersion [("buildArgs", ""), ("dockerfile", "Dockerfile")]
        [("Dockerfile", "sha1:ab12")] ["v-depaaa"]
      = computeVersion [("buildArgs", ""), ("dockerfile", "Dockerfile")]
        [("Dockerfile", "sha1:ab12")] ["v-depaaa"])
    ∧ (computeVersion [("buildArgs", ""), ("dockerfile", "Dockerfile")]
        [("Dockerfile", "sha1:ab12")] ["v-depaaa"]
      ≠ computeVersion [("buildArgs", "foo=bar"), ("dockerfile", "Dockerfile")]
        [("Dockerfile", "sha1:ab12")] ["v-depaaa"])
    ∧ (computeVersion [("buildArgs", ""), ("dockerfile", "Dockerfile")]
        [("Dockerfile", "sha1:ab12")] ["v-depaaa"]
      ≠ computeVersion [("buildArgs", ""), ("dockerfile", "Dockerfile"), ("targetImage", "foo")]
        [("Dockerfile", "sha1:ab12")] ["v-depaaa"])
    ∧ (computeVersion [("buildArgs", ""), ("dockerfile", "Dockerfile")]
        [("Dockerfile", "sha1:ab12")] ["v-depaaa"]
      ≠ computeVersion [("buildArgs", ""), ("dockerfile", "Dockerfile"), ("extraFlags", "foo")]
        [("Dockerfile", "sha1:ab12")] ["v-depaaa"])
    ∧ (computeVersion [("buildArgs", ""), ("dockerfile", "Dockerfile")]
        [("Dockerfile", "sha1:ab12")] ["v-depaaa"]
      ≠ computeVersion [("buildArgs", ""), ("dockerfile", "foo.Dockerfile")]
        [("Dockerfile", "sha1:ab12")] ["v-depaaa"]) :=
  ⟨version_fingerprint_c1.1 _ _ _ _ _ _ rfl rfl rfl,
   version_fingerprint_c1.2 _ _ _ _ _ _ (Or.inl (by decide)),
   version_fingerprint_c1.2 _ _ _ _ _ _ (Or.inl (by decide)),
   version_fingerprint_c1.2 _ _ _ _ _ _ (Or.inl (by decide)),
   version_fingerprint_c1.2 _ _ _ _ _ _ (Or.inl (by decide))⟩

/-- C2: for every execute-type task, process returns a result only when the
underlying handler reports success: RunTask.process throws a RunTaskError
carrying the detail log whenever the returned state is not ready,
TestTask.process throws a TestError whenever the result detail is not
successful, every error thrown by the handler is propagated to the caller
unchanged for the run, test and build tasks, and process invokes the handler
exactly once, so there is no retry at this layer. -/
theorem execute_process_success_only_c2 :
    (∀ (rs : Option RunDetail → String) (uid : Nat) (a : Action)
       (sch : String → String → Bool) (r : RunResult),
       validateActionOutputs a sch r.outputs = .ok () →
       (runTaskProcess rs uid a sch (.ok r)).1 =
         if r.state = ActionState.ready then .ok (r, executeAction a r)
         else .error (.runTaskError (r.detail.map RunDetail.log)))
    ∧ (∀ (rs : Option TestDetail → String) (uid : Nat) (a : Action)
       (sch : String → String → Bool) (r : TestResult),
       validateActionOutputs a sch r.outputs = .ok () →
       (testTaskProcess rs uid a sch (.ok r)).1 =
         match r.detail with
         | some d =>
           if d.success then .ok (r, executeAction a r)
           else .error (.testError (some d.log))
         | none => .error (.testError none))
    ∧ (∀ (e : Err) (rs : Option RunDetail → String) (uid : Nat) (a : Action)
       (sch : String → String → Bool),
       (runTaskProcess rs uid a sch (.error e)).1 = .error e)
    ∧ (∀ (e : Err) (rs : Option TestDetail → String) (uid : Nat) (a : Action)
       (sch : String → String → Bool),
       (testTaskProcess rs uid a sch (.error e)).1 = .error e)
    ∧ (∀ (e : Err) (a : Action), buildTaskProcess a (.error e) = .error e)
    ∧ (∀ (rs : Option RunDetail → String) (uid : Nat) (a : Action)
       (sch : String → String → Bool) (h : Except Err RunResult),
       ((runTaskProcess rs uid a sch h).2.countP isCallHandler) = 1)
    ∧ (∀ (rs : Option TestDetail → String) (uid : Nat) (a : Action)
       (sch : String → String → Bool) (h : Except Err TestResult),
       ((testTaskProcess rs uid a sch h).2.countP isCallHandler) = 1) := by
  refine ⟨?_, ?_, ?_, ?_, ?_, ?_, ?_⟩
  · intro rs uid a sch r hv
    by_cases hr : r.state = ActionState.ready <;>
      simp [runTaskProcess, runRouterRun, hv, hr]
  · intro rs uid a sch r hv
    cases hd : r.detail with
    | none => simp [testTaskProcess, testRouterRun, hv, hd]
    | some d =>
      by_cases hs : d.success <;>
        simp [testTaskProcess, testRouterRun, hv, hd, hs]
  · intro e rs uid a sch
    simp [runTaskProcess, runRouterRun]
  · intro e rs uid a sch
    simp [testTaskProcess, testRouterRun]
  · intro e a
    simp [buildTaskProcess]
  · intro rs uid a sch h
    cases h with
    | error e => simp [runTaskProcess, runRouterRun, isCallHandler]
    | ok r =>
      cases hv : validateActionOutputs a sch r.outputs with
      | error e =>
        simp [runTaskProcess, runRouterRun, hv, isCallHandler]
      | ok u =>
        by_cases hr : r.state = ActionState.ready <;>
          simp [runTaskProcess, runRouterRun, hv, hr, isCallHandler]
  · intro rs uid a sch h
    cases h with
    | error e => simp [testTaskProcess, testRouterRun, isCallHandler]
    | ok r =>
      cases hv : validateActionOutputs a sch r.outputs with
      | error e =>
        simp [testTaskProcess, testRouterRun, hv, isCallHandler]
      | ok u =>
        cases hd : r.detail with
        | none => simp [testTaskProcess, testRouterRun, hv, hd, isCallHandler]
        | some d =>
          by_cases hs : d.success <;>
            simp [testTaskProcess, testRouterRun, hv, hd, hs, isCallHandler]

/-- Witness for C2: a ready run result is returned, a not-ready run result
raises RunTaskError, a failed test raises TestError, and a concrete handler
error passes through each task unchanged, with one handler call each. -/
theorem execute_process_success_only_c2_witness :
    ((runTaskProcess (fun _ => "ready") 7 act0 (fun _ _ => true) (.ok readyRun)).1
        = .ok (readyRun, executeAction act0 readyRun))
    ∧ ((runTaskProcess (fun _ => "failed") 7 act0 (fun _ _ => true) (.ok failedRun)).1
        = .error (.runTaskError (some "boom")))
    ∧ ((testTaskProcess (fun _ => "failed") 7 act0 (fun _ _ => true) (.ok failedTest)).1
        = .error (.testError (some "tboom")))
    ∧ ((runTaskProcess (fun _ => "x") 7 act0 (fun _ _ => true)
          (.error (.handlerFailed "err1"))).1 = .error (.handlerFailed "err1"))
    ∧ ((runTaskProcess (fun _ => "x") 7 act0 (fun _ _ => true)
          (.ok readyRun)).2.countP isCallHandler = 1) := by
  refine ⟨?_, ?_, ?_, ?_, ?_⟩
  · have h := execute_process_success_only_c2.1 (fun _ => "ready") 7 act0
      (fun _ _ => true) readyRun (by rfl)
    simpa [readyRun] using h
  · have h := execute_process_success_only_c2.1 (fun _ => "failed") 7 act0
      (fun _ _ => true) failedRun (by rfl)
    simpa [failedRun] using h
  · have h := execute_process_success_only_c2.2.1 (fun _ => "failed") 7 act0
      (fun _ _ => true) failedTest (by rfl)
    simpa [failedTest] using h
  · exact execute_process_success_only_c2.2.2.1 (.handlerFailed "err1")
      (fun _ => "x") 7 act0 (fun _ _ => true)
  · exact execute_process_success_only_c2.2.2.2.2.2.1 (fun _ => "x") 7 act0
      (fun _ _ => true) (.ok readyRun)

/-- C3: getStatus returns null exactly when no valid prior result exists:
RunTask.getStatus returns null precisely when the router getResult reports a
null detail, in particular when the plugin has no getResult handler, where
the default handler yields state unknown with null detail; otherwise it
returns the status together with the executed-action value.
TestTask.getStatus returns the status with the executed-action value exactly
when a stored test result exists and was successful and null otherwise, and
PublishTask.getStatus always returns null. -/
theorem getstatus_null_c3 :
    (∀ (rs : Option RunDetail → String) (a : Action) (sch : String → String → Bool)
       (handler : Option (Except Err RunResult)) (r : RunResult),
       (runRouterGetResult rs a sch handler).1 = .ok r →
       (r.detail = none → runTaskGetStatus rs a sch handler = .ok none)
       ∧ (r.detail ≠ none →
          runTaskGetStatus rs a sch handler = .ok (some (r, executeAction a r))))
    ∧ (∀ (rs : Option RunDetail → String) (a : Action) (sch : String → String → Bool),
       runTaskGetStatus rs a sch none = .ok none)
    ∧ (∀ (rs : Option TestDetail → String) (a : Action) (sch : String → String → Bool)
       (handler : Option (Except Err TestResult)) (r : TestResult),
       (testRouterGetResult rs a sch handler).1 = .ok r →
       (testTaskGetStatus rs a sch handler = .ok (some (r, executeAction a r))
          ↔ ∃ d, r.detail = some d ∧ d.success = true)
       ∧ ((¬ ∃ d, r.detail = some d ∧ d.success = true) →
          testTaskGetStatus rs a sch handler = .ok none))
    ∧ (∀ p : PublishTask, publishTaskGetStatus p = none) := by
  refine ⟨?_, ?_, ?_, fun p => rfl⟩
  · intro rs a sch handler r hr
    constructor
    · intro hd
      simp [runTaskGetStatus, hr, hd]
    · intro hd
      simp [runTaskGetStatus, hr, hd]
  · intro rs a sch
    rfl
  · intro rs a sch handler r hr
    constructor
    · cases hd : r.detail with
      | none => simp [testTaskGetStatus, hr, hd]
      | some d =>
        by_cases hs : d.success <;> simp [testTaskGetStatus, hr, hd, hs]
    · intro hnone
      cases hd : r.detail with
      | none => simp [testTaskGetStatus, hr, hd]
      | some d =>
        have hs : d.success = false := by
          by_contra hc
          exact hnone ⟨d, hd, by simpa using hc⟩
        simp [testTaskGetStatus, hr, hd, hs]

/-- Witness for C3: with a stored ready run result getStatus returns the
status and the executed action; with no getResult handler it returns null;
with a stored failed test result TestTask.getStatus returns null; and
PublishTask.getStatus returns null on a concrete task. -/
theorem getstatus_null_c3_witness :
    (runTaskGetStatus (fun _ => "s") act0 (fun _ _ => true) (some (.ok readyRun))
       = .ok (some (readyRun, executeAction act0 readyRun)))
    ∧ (runTaskGetStatus (fun _ => "s") act0 (fun _ _ => true) none = .ok none)
    ∧ (testTaskGetStatus (fun _ => "s") act0 (fun _ _ => true) (some (.ok failedTest))
       = .ok none)
    ∧ (publishTaskGetStatus { action := act0, forceActions := [], tagTemplate := none }
       = none) := by
  refine ⟨?_, ?_, ?_, ?_⟩
  · exact (getstatus_null_c3.1 (fun _ => "s") act0 (fun _ _ => true)
      (some (.ok readyRun)) readyRun rfl).2 (by simp [readyRun])
  · exact getstatus_null_c3.2.1 (fun _ => "s") act0 (fun _ _ => true)
  · exact (getstatus_null_c3.2.2.1 (fun _ => "s") act0 (fun _ _ => true)
      (some (.ok failedTest)) failedTest rfl).2 (by simp [failedTest])
  · exact getstatus_null_c3.2.2.2 _

/-- C4: every router execute and getResult invocation validates the handler
outputs against the runtime output schema, a validation failure propagates as
the thrown error and the result is never returned unvalidated, and the
validation error names the action kind, the action name and the offending
key. -/
theorem output_validation_c4 :
    (∀ (rs : Option RunDetail → String) (uid : Nat) (a : Action)
       (sch : String → String → Bool) (r : RunResult),
       (runRouterRun rs uid a sch (.ok r)).1 =
         match validateActionOutputs a sch r.outputs with
         | .ok _ => .ok r
         | .error e => .error e)
    ∧ (∀ (rs : Option TestDetail → String) (uid : Nat) (a : Action)
       (sch : String → String → Bool) (r : TestResult),
       (testRouterRun rs uid a sch (.ok r)).1 =
         match validateActionOutputs a sch r.outputs with
         | .ok _ => .ok r
         | .error e => .error e)
    ∧ (∀ (rs : Option RunDetail → String) (a : Action)
       (sch : String → String → Bool) (r : RunResult),
       (runRouterGetResult rs a sch (some (.ok r))).1 =
         match validateActionOutputs a sch r.outputs with
         | .ok _ => .ok r
         | .error e => .error e)
    ∧ (∀ (rs : Option TestDetail → String) (a : Action)
       (sch : String → String → Bool) (r : TestResult),
       (testRouterGetResult rs a sch (some (.ok r))).1 =
         match validateActionOutputs a sch r.outputs with
         | .ok _ => .ok r
         | .error e => .error e)
    ∧ (∀ (a : Action) (sch : String → String → Bool) (outs : Outputs) (e : Err),
       validateActionOutputs a sch outs = .error e →
       ∃ k v, (k, v) ∈ outs ∧ sch k v = false
         ∧ e = .outputValidation a.kind a.name k) := by
  refine ⟨?_, ?_, ?_, ?_, ?_⟩
  · intro rs uid a sch r
    cases hv : validateActionOutputs a sch r.outputs <;>
      simp [runRouterRun, hv]
  · intro rs uid a sch r
    cases hv : validateActionOutputs a sch r.outputs <;>
      simp [testRouterRun, hv]
  · intro rs a sch r
    cases hv : validateActionOutputs a sch r.outputs <;>
      simp [runRouterGetResult, hv]
  · intro rs a sch r
    cases hv : validateActionOutputs a sch r.outputs <;>
      simp [testRouterGetResult, hv]
  · intro a sch outs e hv
    unfold validateActionOutputs at hv
    cases hfind : outs.find? (fun kv => !(sch kv.1 kv.2)) with
    | none => simp [hfind] at hv
    | some kv =>
      rw [hfind] at hv
      have hmem : kv ∈ outs := List.mem_of_find?_eq_some hfind
      have hp := List.find?_some hfind
      refine ⟨kv.1, kv.2, by simpa using hmem, by simpa using hp, ?_⟩
      simpa using hv.symm

/-- Witness for C4: with a schema rejecting every value, the run router
execute operation on a result carrying output key foo fails with the
validation error naming the action kind Run, the action name task-a and the
key foo, and that error indeed names kind, name and offending key. -/
theorem output_validation_c4_witness :
    ((runRouterRun (fun _ => "s") 7 act0 (fun _ _ => false) (.ok runWithOutputs)).1
       = .error (.outputValidation "Run" "task-a" "foo"))
    ∧ (∃ k v, (k, v) ∈ runWithOutputs.outputs ∧ (fun _ _ => false) k v = false
         ∧ (Err.outputValidation "Run" "task-a" "foo")
             = .outputValidation act0.kind act0.name k) := by
  constructor
  · have h := output_validation_c4.1 (fun _ => "s") 7 act0 (fun _ _ => false) runWithOutputs
    simpa [runWithOutputs, validateActionOutputs, act0] using h
  · exact output_validation_c4.2.2.2.2 act0 (fun _ _ => false) runWithOutputs.outputs
      (.outputValidation "Run" "task-a" "foo") (by rfl)

/-- C5: an error raised during a status check is treated as not up to date,
so the task proceeds to re-execution rather than aborting as failed, unless
the error indicates a configuration problem; in particular an error thrown
by the router getResult inside RunTask.getStatus leads the solver step to a
needs-run decision. -/
theorem status_error_not_fatal_c5 :
    ∀ (rs : Option RunDetail → String) (a : Action) (sch : String → String → Bool)
      (e : Err), e.isConfiguration = false →
      solverStatusStep (runTaskGetStatus rs a sch (some (.error e)))
        = NodeDecision.needsRun := by
  intro rs a sch e he
  simp [runTaskGetStatus, runRouterGetResult, solverStatusStep, he]

/-- Witness for C5: a concrete handler error thrown during the run status
check yields a needs-run decision. -/
theorem status_error_not_fatal_c5_witness :
    solverStatusStep (runTaskGetStatus (fun _ => "s") act0 (fun _ _ => true)
      (some (.error (.handlerFailed "boom")))) = NodeDecision.needsRun :=
  status_error_not_fatal_c5 (fun _ => "s") act0 (fun _ _ => true)
    (.handlerFailed "boom") rfl

/-- C6: for every PublishTask whose action does not set allowPublish to
false, resolveProcessDependencies returns exactly one upstream task: a
BuildTask wrapping the same action, forced exactly when the action matches a
force-action reference; and a PublishTask never declares more than one
upstream task. -/
theorem publish_dependencies_c6 :
    (∀ t : PublishTask, t.action.allowPublish ≠ some false →
      t.resolveProcessDependencies =
        [{ action := t.action,
           force := t.forceActions.any (fun r => t.action.matchesRef r) }]
      ∧ ∀ b ∈ t.resolveProcessDependencies,
          b.action = t.action
          ∧ (b.force = true ↔ ∃ r ∈ t.forceActions, t.action.matchesRef r = true))
    ∧ (∀ t : PublishTask, t.resolveProcessDependencies.length ≤ 1) := by
  constructor
  · intro t hp
    have heq : t.resolveProcessDependencies =
        [{ action := t.action,
           force := t.forceActions.any (fun r => t.action.matchesRef r) }] := by
      simp [PublishTask.resolveProcessDependencies, hp]
    refine ⟨heq, ?_⟩
    intro b hb
    rw [heq] at hb
    simp only [List.mem_singleton] at hb
    subst hb
    exact ⟨rfl, by simp [List.any_eq_true]⟩
  · intro t
    by_cases hp : t.action.allowPublish = some false <;>
      simp [PublishTask.resolveProcessDependencies, hp]

/-- Witness for C6: a concrete publish task with allowPublish unset and a
matching force reference resolves to exactly one forced BuildTask for the
same action. -/
theorem publish_dependencies_c6_witness :
    PublishTask.resolveProcessDependencies
        { action := act0, forceActions := [{ kind := "Run", name := "task-a" }],
          tagTemplate := none }
      = [{ action := act0, force := true }] := by
  have h := (publish_dependencies_c6.1
    { action := act0, forceActions := [{ kind := "Run", name := "task-a" }],
      tagTemplate := none } (by simp [act0])).1
  simpa [act0, Action.matchesRef] using h

/-- C7: build-type tasks are capped at five concurrent executions: every
BuildTask declares type build with concurrencyLimit 5, every PublishTask
declares concurrencyLimit 5, and in the scheduler model every state
reachable under the BuildTask limit has at most five tasks inside process at
any point. -/
theorem build_concurrency_c7 :
    (∀ t : BuildTask, t.type = "build" ∧ t.concurrencyLimit = 5)
    ∧ (∀ p : PublishTask, p.concurrencyLimit = 5)
    ∧ (∀ (t : BuildTask) (n : Nat),
        SchedReachable t.concurrencyLimit n → n ≤ 5) := by
  refine ⟨fun t => ⟨rfl, rfl⟩, fun p => rfl, ?_⟩
  intro t n h
  have hl : t.concurrencyLimit = 5 := rfl
  rw [hl] at h
  induction h with
  | refl => simp
  | tail hr hstep ih =>
    cases hstep with
    | dispatch m hlt => omega
    | finish m => omega

/-- Witness for C7: on a concrete BuildTask the type and limit fields hold,
and the scheduler state reached by dispatching one build holds at most five
running builds. -/
theorem build_concurrency_c7_witness :
    (BuildTask.type { action := act0, force := false } = "build"
      ∧ BuildTask.concurrencyLimit { action := act0, force := false } = 5)
    ∧ 1 ≤ 5 := by
  constructor
  · exact build_concurrency_c7.1 { action := act0, force := false }
  · exact build_concurrency_c7.2.2 { action := act0, force := false } 1
      (Relation.ReflTransGen.tail Relation.ReflTransGen.refl
        (SchedStep.dispatch 0 (by decide)))

/-- C8: for every run or test router execute invocation, a status event with
state running is emitted before the plugin handler is invoked, and a second
status event carrying the state derived from the handler result is emitted
after the handler returns, in that order, both carrying the same actionUid
and the action version string. -/
theorem status_events_order_c8 :
    (∀ (rs : Option RunDetail → String) (uid : Nat) (a : Action)
       (sch : String → String → Bool) (r : RunResult),
       validateActionOutputs a sch r.outputs = .ok () →
       (runRouterRun rs uid a sch (.ok r)).2 =
         [Effect.statusEvent "taskStatus" a.name a.versionString (some uid) "running",
          Effect.callHandler,
          Effect.statusEvent "taskStatus" a.name a.versionString (some uid) (rs r.detail),
          Effect.copyArtifacts "run" a.name a.versionString,
          Effect.cleanupTmpDir])
    ∧ (∀ (rs : Option TestDetail → String) (uid : Nat) (a : Action)
       (sch : String → String → Bool) (r : TestResult),
       validateActionOutputs a sch r.outputs = .ok () →
       (testRouterRun rs uid a sch (.ok r)).2 =
         [Effect.statusEvent "testStatus" a.name a.versionString (some uid) "running",
          Effect.callHandler,
          Effect.statusEvent "testStatus" a.name a.versionString (some uid) (rs r.detail),
          Effect.copyArtifacts "test" a.name a.versionString,
          Effect.cleanupTmpDir]) := by
  constructor
  · intro rs uid a sch r hv
    simp [runRouterRun, hv]
  · intro rs uid a sch r hv
    simp [testRouterRun, hv]

/-- Witness for C8: the concrete effect trace of a successful run execute
operation emits the running status event, then invokes the handler, then
emits the derived status event with the same actionUid and version. -/
theorem status_events_order_c8_witness :
    (runRouterRun (fun d => if (d.map RunDetail.success).getD false then "succeeded"
        else "failed") 7 act0 (fun _ _ => true) (.ok readyRun)).2 =
      [Effect.statusEvent "taskStatus" "task-a" "v-0123ab" (some 7) "running",
       Effect.callHandler,
       Effect.statusEvent "taskStatus" "task-a" "v-0123ab" (some 7) "succeeded",
       Effect.copyArtifacts "run" "task-a" "v-0123ab",
       Effect.cleanupTmpDir] := by
  have h := status_events_order_c8.1
    (fun d => if (d.map RunDetail.success).getD false then "succeeded" else "failed")
    7 act0 (fun _ _ => true) readyRun (by rfl)
  simpa [act0, readyRun] using h

/-- C9: if a build action sets allowPublish to false then
PublishTask.resolveProcessDependencies returns the empty list and
PublishTask.process returns state ready with detail published false and
empty outputs, without ever invoking the router publish handler. -/
theorem allowpublish_false_c9 :
    ∀ (t : PublishTask) (handler : Except Err PublishResult),
      t.action.allowPublish = some false →
      t.resolveProcessDependencies = []
      ∧ publishTaskProcess t handler =
          (.ok { state := .ready, detail := some { published := false, message := none },
                 outputs := [] }, false) := by
  intro t handler hfalse
  constructor
  · simp [PublishTask.resolveProcessDependencies, hfalse]
  · simp [publishTaskProcess, hfalse]

/-- Witness for C9: a concrete publish task whose action sets allowPublish
to false resolves no dependencies and reports published false without a
handler call, even when the handler would fail. -/
theorem allowpublish_false_c9_witness :
    PublishTask.resolveProcessDependencies
        { action := { act0 with allowPublish := some false }, forceActions := [],
          tagTemplate := none } = []
    ∧ publishTaskProcess
        { action := { act0 with allowPublish := some false }, forceActions := [],
          tagTemplate := none } (.error (.handlerFailed "never"))
      = (.ok { state := .ready, detail := some { published := false, message := none },
               outputs := [] }, false) :=
  allowpublish_false_c9
    { action := { act0 with allowPublish := some false }, forceActions := [],
      tagTemplate := none } (.error (.handlerFailed "never")) rfl

/-- C10: every run or test router execute invocation, whether the plugin
handler returns normally or throws, copies the collected artifacts under the
key derived from the kind, the action name and the action version, and then
cleans the temporary directory up, in all cases. -/
theorem artifacts_always_c10 :
    (∀ (rs : Option RunDetail → String) (uid : Nat) (a : Action)
       (sch : String → String → Bool) (handler : Except Err RunResult),
       ∃ pre, (runRouterRun rs uid a sch handler).2 =
         pre ++ [Effect.copyArtifacts "run" a.name a.versionString,
                 Effect.cleanupTmpDir])
    ∧ (∀ (rs : Option TestDetail → String) (uid : Nat) (a : Action)
       (sch : String → String → Bool) (handler : Except Err TestResult),
       ∃ pre, (testRouterRun rs uid a sch handler).2 =
         pre ++ [Effect.copyArtifacts "test" a.name a.versionString,
                 Effect.cleanupTmpDir]) := by
  constructor
  · intro rs uid a sch handler
    cases handler with
    | error e =>
      exact ⟨[Effect.statusEvent "taskStatus" a.name a.versionString (some uid) "running",
              Effect.callHandler], by simp [runRouterRun]⟩
    | ok r =>
      cases hv : validateActionOutputs a sch r.outputs with
      | error e =>
        exact ⟨[Effect.statusEvent "taskStatus" a.name a.versionString (some uid) "running",
                Effect.callHandler], by simp [runRouterRun, hv]⟩
      | ok u =>
        exact ⟨[Effect.statusEvent "taskStatus" a.name a.versionString (some uid) "running",
                Effect.callHandler,
                Effect.statusEvent "taskStatus" a.name a.versionString (some uid)
                  (rs r.detail)], by simp [runRouterRun, hv]⟩
  · intro rs uid a sch handler
    cases handler with
    | error e =>
      exact ⟨[Effect.statusEvent "testStatus" a.name a.versionString (some uid) "running",
              Effect.callHandler], by simp [testRouterRun]⟩
    | ok r =>
      cases hv : validateActionOutputs a sch r.outputs with
      | error e =>
        exact ⟨[Effect.statusEvent "testStatus" a.name a.versionString (some uid) "running",
                Effect.callHandler], by simp [testRouterRun, hv]⟩
      | ok u =>
        exact ⟨[Effect.statusEvent "testStatus" a.name a.versionString (some uid) "running",
                Effect.callHandler,
                Effect.statusEvent "testStatus" a.name a.versionString (some uid)
                  (rs r.detail)], by simp [testRouterRun, hv]⟩

end Garden
